import Mathlib

/-!
Verification of the Jankomotor 8812 serial stage controller
(`src/hardware/Jankomotor8812/scripts/jankomotor_controller.py`).

The controller is embedded shallowly.  The serial channel is modelled as a
script of reply lines (the lines the device will send, in order) together
with a read cursor and the trace of command lines written so far.  Every
method of `SimpleJankomotorController` becomes a pure function from the
controller state and the channel to a Python-style outcome — a normal
result or a raised exception — together with the updated state and channel.
String handling (`strip`, `split`, `startswith`, `int`, substring tests)
is re-implemented on `List Char` by structural recursion so that concrete
runs evaluate inside the kernel.
-/

namespace Janko

/-- Exceptions the Python code can raise.  `connectionError` models
`ConnectionError("Not connected to Arduino")` — the error the spec calls
`NotConnected`; `indexError` and `valueError` model the exceptions of list
indexing and of `int()` parsing in `get_position`. -/
inductive PyErr where
  | connectionError
  | indexError
  | valueError
deriving DecidableEq, Repr

/-- The `Position` dataclass of the module. -/
@[ext]
structure Position where
  x : Int
  y : Int
deriving DecidableEq, Repr

/-- The mutable state of `SimpleJankomotorController`: `connected` models
`serial_conn is not None and serial_conn.is_open`; `enabled` and
`position` are the attributes of the same names.  (`port`, `baudrate`,
`timeout` and the logger influence no verified behaviour.) -/
@[ext]
structure CtrlState where
  connected : Bool
  enabled : Bool
  position : Position
deriving DecidableEq, Repr

/-- The serial channel: `replies i` is the `i`-th raw line the device
sends (before stripping), `cursor` counts the lines already consumed by
`readline`, and `sent` is the trace of command lines written so far. -/
@[ext]
structure Chan where
  replies : Nat → String
  cursor : Nat
  sent : List String

/-- Is `pre` a prefix of the second list?  (Helper for `startswith` and
for Python's `in` substring test.) -/
def isPrefixChars : List Char → List Char → Bool
  | [], _ => true
  | _ :: _, [] => false
  | a :: as, b :: bs => a == b && isPrefixChars as bs

/-- Python `s.startswith(pre)`. -/
def pyStartsWith (s pre : String) : Bool :=
  isPrefixChars pre.data s.data

/-- Substring search worker for Python's `tok in s`. -/
def containsChars (needle : List Char) : List Char → Bool
  | [] => isPrefixChars needle []
  | c :: cs => isPrefixChars needle (c :: cs) || containsChars needle cs

/-- Python `tok in s` (substring containment). -/
def pyContains (s tok : String) : Bool :=
  containsChars tok.data s.data

/-- Python `s.strip()`: drop leading and trailing whitespace. -/
def pyStrip (s : String) : String :=
  ⟨((s.data.dropWhile Char.isWhitespace).reverse.dropWhile Char.isWhitespace).reverse⟩

/-- Worker for Python `s.split()` with no argument: split on runs of
whitespace, producing no empty pieces; `cur` holds the current piece in
reverse. -/
def splitWsGo : List Char → List Char → List (List Char)
  | cur, [] => if cur.isEmpty then [] else [cur.reverse]
  | cur, c :: cs =>
    if c.isWhitespace then
      if cur.isEmpty then splitWsGo [] cs else cur.reverse :: splitWsGo [] cs
    else splitWsGo (c :: cur) cs

/-- Python `s.split()` (no separator argument). -/
def pySplit (s : String) : List String :=
  (splitWsGo [] s.data).map String.mk

/-- Worker for Python `s.split('=')`. -/
def splitEqGo : List Char → List Char → List (List Char)
  | cur, [] => [cur.reverse]
  | cur, c :: cs =>
    if c == '=' then cur.reverse :: splitEqGo [] cs else splitEqGo (c :: cur) cs

/-- Python `s.split('=')`. -/
def pySplitEq (s : String) : List String :=
  (splitEqGo [] s.data).map String.mk

/-- Worker for Python `int(s)`: accumulate decimal digits. -/
def digitsAux : Nat → List Char → Option Nat
  | acc, [] => some acc
  | acc, c :: cs =>
    if c.isDigit then digitsAux (acc * 10 + (c.toNat - 48)) cs else none

/-- Python `int(s)` on an optional sign followed by decimal digits;
`none` models the `ValueError` raise.  (Python's tolerance of surrounding
whitespace and underscore separators is not exercised by any response the
development considers.) -/
def pyInt (s : String) : Option Int :=
  match s.data with
  | [] => none
  | '-' :: cs =>
    if cs.isEmpty then none else (digitsAux 0 cs).map (fun n => -(n : Int))
  | '+' :: cs =>
    if cs.isEmpty then none else (digitsAux 0 cs).map (fun n => (n : Int))
  | cs => (digitsAux 0 cs).map (fun n => (n : Int))

/-- `_send_command`: raise `ConnectionError` when not connected (nothing
is written to the channel), otherwise write the command line and read and
strip one reply line. -/
def send_command (s : CtrlState) (c : Chan) (cmd : String) :
    (Except PyErr String) × Chan :=
  if s.connected then
    (.ok (pyStrip (c.replies c.cursor)),
      { replies := c.replies, cursor := c.cursor + 1, sent := c.sent ++ [cmd] })
  else (.error .connectionError, c)

/-- `enable()`. -/
def enable (s : CtrlState) (c : Chan) : (Except PyErr Bool) × CtrlState × Chan :=
  match send_command s c "ENABLE" with
  | (.error e, c') => (.error e, s, c')
  | (.ok r, c') =>
    if r = "OK" then (.ok true, { s with enabled := true }, c')
    else (.ok false, s, c')

/-- `disable()`. -/
def disable (s : CtrlState) (c : Chan) : (Except PyErr Bool) × CtrlState × Chan :=
  match send_command s c "DISABLE" with
  | (.error e, c') => (.error e, s, c')
  | (.ok r, c') =>
    if r = "OK" then (.ok true, { s with enabled := false }, c')
    else (.ok false, s, c')

/-- `int(tok.split('=')[1])` — the field parser inside `get_position`. -/
def parseField (tok : String) : Except PyErr Int :=
  match (pySplitEq tok)[1]? with
  | none => .error .indexError
  | some v =>
    match pyInt v with
    | none => .error .valueError
    | some n => .ok n

/-- `get_position()`: query `POSITION`; overwrite the cached position only
when the reply starts with `POS X=` and both fields parse; otherwise
(non-matching reply) return the previous cached value unchanged. -/
def get_position (s : CtrlState) (c : Chan) :
    (Except PyErr Position) × CtrlState × Chan :=
  match send_command s c "POSITION" with
  | (.error e, c') => (.error e, s, c')
  | (.ok response, c') =>
    if pyStartsWith response "POS X=" then
      match (pySplit response)[1]? with
      | none => (.error .indexError, s, c')
      | some p1 =>
        match parseField p1 with
        | .error e => (.error e, s, c')
        | .ok x =>
          match (pySplit response)[2]? with
          | none => (.error .indexError, s, c')
          | some p2 =>
            match parseField p2 with
            | .error e => (.error e, s, c')
            | .ok y => (.ok ⟨x, y⟩, { s with position := ⟨x, y⟩ }, c')
    else (.ok s.position, s, c')

/-- The per-axis block of `move_relative`: a zero delta sends nothing and
counts as success, otherwise send `MOVE <axis> <steps>` and report whether
the reply is `OK`. -/
def move_axis (s : CtrlState) (c : Chan) (axis : String) (steps : Int) :
    (Except PyErr Bool) × Chan :=
  if steps = 0 then (.ok true, c)
  else
    match send_command s c ("MOVE " ++ axis ++ " " ++ toString steps) with
    | (.error e, c') => (.error e, c')
    | (.ok r, c') => (.ok (r = "OK"), c')

/-- `move_relative(x_steps, y_steps)`: refuse (plain `False`, no error)
when not enabled; otherwise move X then Y, aborting with `False` on a
non-`OK` reply; the cached position is updated only after both axes
succeed. -/
def move_relative (s : CtrlState) (c : Chan) (dx dy : Int) :
    (Except PyErr Bool) × CtrlState × Chan :=
  if s.enabled then
    match move_axis s c "X" dx with
    | (.error e, c1) => (.error e, s, c1)
    | (.ok false, c1) => (.ok false, s, c1)
    | (.ok true, c1) =>
      match move_axis s c1 "Y" dy with
      | (.error e, c2) => (.error e, s, c2)
      | (.ok false, c2) => (.ok false, s, c2)
      | (.ok true, c2) =>
        (.ok true,
          { s with position := ⟨s.position.x + dx, s.position.y + dy⟩ }, c2)
  else (.ok false, s, c)

/-- `move_to(x, y)`: refresh the cached position with `get_position`, then
delegate the deltas to `move_relative`. -/
def move_to (s : CtrlState) (c : Chan) (x y : Int) :
    (Except PyErr Bool) × CtrlState × Chan :=
  match get_position s c with
  | (.error e, s1, c1) => (.error e, s1, c1)
  | (.ok cur, s1, c1) => move_relative s1 c1 (x - cur.x) (y - cur.y)

/-- `home()`. -/
def home (s : CtrlState) (c : Chan) : (Except PyErr Bool) × CtrlState × Chan :=
  match send_command s c "HOME" with
  | (.error e, c') => (.error e, s, c')
  | (.ok r, c') =>
    if r = "OK" then (.ok true, { s with position := ⟨0, 0⟩ }, c')
    else (.ok false, s, c')

/-- `emergency_stop()`. -/
def emergency_stop (s : CtrlState) (c : Chan) :
    (Except PyErr Bool) × CtrlState × Chan :=
  match send_command s c "STOP" with
  | (.error e, c') => (.error e, s, c')
  | (.ok r, c') => (.ok (r = "OK"), s, c')

/-- `set_limits(x_min, x_max, y_min, y_max)`.  (The Python method stores
nothing locally; it only reports the acknowledgement.) -/
def set_limits (s : CtrlState) (c : Chan) (xmin xmax ymin ymax : Int) :
    (Except PyErr Bool) × CtrlState × Chan :=
  match send_command s c
      ("SET_LIMITS " ++ toString xmin ++ " " ++ toString xmax ++ " " ++
        toString ymin ++ " " ++ toString ymax) with
  | (.error e, c') => (.error e, s, c')
  | (.ok r, c') => (.ok (r = "OK"), s, c')

/-- The port as `connect()` sees it: whether `serial.Serial(...)` raises
`SerialException`, and the banner line `readline` returns after the settle
delay (the empty string models a read timeout). -/
structure PortCfg where
  openFails : Bool
  banner : String

/-- `connect()`: a `SerialException` from opening the port is caught and
reported as a `False` return; otherwise the port is open (so `connected`
becomes true) and the result is `True` exactly when the stripped banner
contains the token `READY`. -/
def connect (s : CtrlState) (p : PortCfg) : (Except PyErr Bool) × CtrlState :=
  if p.openFails then (.ok false, s)
  else
    let response := pyStrip p.banner
    if pyContains response "READY" then (.ok true, { s with connected := true })
    else (.ok false, { s with connected := true })

/-- `disconnect()`: when the port is open, call `disable()` (its result is
ignored) and close the port; otherwise do nothing. -/
def disconnect (s : CtrlState) (c : Chan) :
    (Except PyErr Unit) × CtrlState × Chan :=
  if s.connected then
    match disable s c with
    | (.error e, s1, c1) => (.error e, s1, c1)
    | (.ok _, s1, c1) => (.ok (), { s1 with connected := false }, c1)
  else (.ok (), s, c)

/-- One visited point of a raster scan: the coordinates passed to
`move_to` and the loop indices passed to the callback. -/
structure GridPt where
  x : Int
  y : Int
  xi : Nat
  yi : Nat
deriving DecidableEq, Repr

/-- The local variable `x_points = (x_end - x_start) // x_step` of
`raster_scan` (Python `//` is flooring division). -/
def x_points (xs xe sx : Int) : Int := (xe - xs).fdiv sx

/-- The local variable `y_points = (y_end - y_start) // y_step` of
`raster_scan`. -/
def y_points (ys ye sy : Int) : Int := (ye - ys).fdiv sy

/-- The grid of a raster scan exactly as the nested loops of
`raster_scan` enumerate it: outer loop over the Y index ascending, inner
loop over the X index ascending, `x_points + 1` columns and
`y_points + 1` rows (`range(n)` of a non-positive `n` is empty, hence the
`toNat`). -/
def gridPoints (xs ys xe ye sx sy : Int) : List GridPt :=
  (List.range (y_points ys ye sy + 1).toNat).flatMap (fun (yi : Nat) =>
    (List.range (x_points xs xe sx + 1).toNat).map (fun (xi : Nat) =>
      ⟨xs + (xi : Int) * sx, ys + (yi : Int) * sy, xi, yi⟩))

/-- Outcome of a raster scan: the returned value (or propagated
exception), the final state and channel, the callback invocations in
order, and the `move_to` targets attempted in order. -/
structure ScanOut where
  res : Except PyErr Bool
  state : CtrlState
  chan : Chan
  calls : List GridPt
  targets : List (Int × Int)

/-- The scan loop of `raster_scan` over a list of grid points: move to
each point, aborting with `False` on the first failed move (no callback
for that point, nothing after it attempted); on success the callback is
invoked with `(x, y, x_idx, y_idx)` before proceeding. -/
def scanPoints : CtrlState → Chan → List GridPt → ScanOut
  | s, c, [] => ⟨.ok true, s, c, [], []⟩
  | s, c, pt :: rest =>
    match move_to s c pt.x pt.y with
    | (.error e, s1, c1) => ⟨.error e, s1, c1, [], [(pt.x, pt.y)]⟩
    | (.ok false, s1, c1) => ⟨.ok false, s1, c1, [], [(pt.x, pt.y)]⟩
    | (.ok true, s1, c1) =>
      let out := scanPoints s1 c1 rest
      ⟨out.res, out.state, out.chan, pt :: out.calls, (pt.x, pt.y) :: out.targets⟩

/-- `raster_scan(x_start, y_start, x_end, y_end, x_step, y_step)`: first a
separate `move_to` to the start corner (failure returns `False` before
any grid point is visited), then the row-major loop of `scanPoints`. -/
def raster_scan (s : CtrlState) (c : Chan) (xs ys xe ye sx sy : Int) : ScanOut :=
  match move_to s c xs ys with
  | (.error e, s0, c0) => ⟨.error e, s0, c0, [], [(xs, ys)]⟩
  | (.ok false, s0, c0) => ⟨.ok false, s0, c0, [], [(xs, ys)]⟩
  | (.ok true, s0, c0) =>
    let out := scanPoints s0 c0 (gridPoints xs ys xe ye sx sy)
    ⟨out.res, out.state, out.chan, out.calls, (xs, ys) :: out.targets⟩

/-- A straight-line client program that issues one `move_relative` per
listed delta pair; an exception aborts the sequence (Python would
propagate it), a `False` result does not. -/
def runMoves : CtrlState → Chan → List (Int × Int) →
    (Except PyErr Unit) × CtrlState × Chan × List Bool
  | s, c, [] => (.ok (), s, c, [])
  | s, c, (dx, dy) :: rest =>
    match move_relative s c dx dy with
    | (.error e, s1, c1) => (.error e, s1, c1, [])
    | (.ok b, s1, c1) =>
      match runMoves s1 c1 rest with
      | (r, s2, c2, bs) => (r, s2, c2, b :: bs)

/-- Sum of the X components of a delta list. -/
def sumFst (ds : List (Int × Int)) : Int := (ds.map Prod.fst).sum

/-- Sum of the Y components of a delta list. -/
def sumSnd (ds : List (Int × Int)) : Int := (ds.map Prod.snd).sum

/-- A freshly constructed controller: disconnected, disabled, at the
origin. -/
def stInit : CtrlState := ⟨false, false, ⟨0, 0⟩⟩

/-- A connected and enabled controller whose cached position is the
origin. -/
def stConn : CtrlState := ⟨true, true, ⟨0, 0⟩⟩

/-- A fresh channel whose device acknowledges every command with `OK`. -/
def chanOK : Chan := ⟨fun _ => "OK", 0, []⟩

/-- A fresh channel whose device rejects every command with `ERR`. -/
def chanErr : Chan := ⟨fun _ => "ERR", 0, []⟩

/-- A fresh channel that acknowledges the first command and rejects every
later one. -/
def chanOkThenErr : Chan := ⟨fun i => if i == 0 then "OK" else "ERR", 0, []⟩

/-- A fresh channel that rejects exactly the fourth line read (`ERR`) and
acknowledges everything else — it makes the second grid point of a raster
scan fail. -/
def chanFailAt3 : Chan := ⟨fun i => if i == 3 then "ERR" else "OK", 0, []⟩

/-- A connected and enabled controller whose cached position is (3, 4). -/
def stAt34 : CtrlState := ⟨true, true, ⟨3, 4⟩⟩

/-- A fresh channel whose device answers every command with a line that is
neither `OK` nor a position report. -/
def chanNope : Chan := ⟨fun _ => "NOPE", 0, []⟩

/-- The 36 grid points of the raster scan over (0, 0) → (500, 500) with
steps (100, 100), written out in the row-major order the spec lists. -/
def grid36 : List GridPt := [
  ⟨0, 0, 0, 0⟩,
  ⟨100, 0, 1, 0⟩,
  ⟨200, 0, 2, 0⟩,
  ⟨300, 0, 3, 0⟩,
  ⟨400, 0, 4, 0⟩,
  ⟨500, 0, 5, 0⟩,
  ⟨0, 100, 0, 1⟩,
  ⟨100, 100, 1, 1⟩,
  ⟨200, 100, 2, 1⟩,
  ⟨300, 100, 3, 1⟩,
  ⟨400, 100, 4, 1⟩,
  ⟨500, 100, 5, 1⟩,
  ⟨0, 200, 0, 2⟩,
  ⟨100, 200, 1, 2⟩,
  ⟨200, 200, 2, 2⟩,
  ⟨300, 200, 3, 2⟩,
  ⟨400, 200, 4, 2⟩,
  ⟨500, 200, 5, 2⟩,
  ⟨0, 300, 0, 3⟩,
  ⟨100, 300, 1, 3⟩,
  ⟨200, 300, 2, 3⟩,
  ⟨300, 300, 3, 3⟩,
  ⟨400, 300, 4, 3⟩,
  ⟨500, 300, 5, 3⟩,
  ⟨0, 400, 0, 4⟩,
  ⟨100, 400, 1, 4⟩,
  ⟨200, 400, 2, 4⟩,
  ⟨300, 400, 3, 4⟩,
  ⟨400, 400, 4, 4⟩,
  ⟨500, 400, 5, 4⟩,
  ⟨0, 500, 0, 5⟩,
  ⟨100, 500, 1, 5⟩,
  ⟨200, 500, 2, 5⟩,
  ⟨300, 500, 3, 5⟩,
  ⟨400, 500, 4, 5⟩,
  ⟨500, 500, 5, 5⟩]

/-- The channel after the run `raster_scan stConn chanFailAt3 0 0 100 100
100 100`: four lines consumed, three `POSITION` queries and the rejected
`MOVE X 100` written. -/
def cFail4 : Chan :=
  ⟨chanFailAt3.replies, 4, ["POSITION", "POSITION", "POSITION", "MOVE X 100"]⟩

/-- The channel after a failed `move_to stConn chanErr 5 0`: the
`POSITION` query and the rejected `MOVE X 5` were written. -/
def cErr2 : Chan := ⟨chanErr.replies, 2, ["POSITION", "MOVE X 5"]⟩

/-- Inversion for a `get_position` call that returns normally: the value
returned is exactly the cached position of the new state, `connected` and
`enabled` are untouched, and the channel has consumed one reply line and
carries one new `POSITION` command. -/
theorem get_position_ok_inv (s : CtrlState) (c : Chan) (q : Position)
    (s1 : CtrlState) (c1 : Chan) (h : get_position s c = (.ok q, s1, c1)) :
    s1.position = q ∧ s1.connected = s.connected ∧ s1.enabled = s.enabled ∧
      c1 = ⟨c.replies, c.cursor + 1, c.sent ++ ["POSITION"]⟩ := by
  by_cases hc : s.connected = true
  · unfold get_position send_command at h
    rw [if_pos hc] at h
    dsimp only at h
    split at h
    · split at h
      · simp at h
      · split at h
        · simp at h
        · split at h
          · simp at h
          · split at h
            · simp at h
            · simp only [Prod.mk.injEq, Except.ok.injEq] at h
              obtain ⟨hq, hs, hchan⟩ := h
              subst hq hs hchan
              exact ⟨rfl, rfl, rfl, rfl⟩
    · simp only [Prod.mk.injEq, Except.ok.injEq] at h
      obtain ⟨hq, hs, hchan⟩ := h
      subst hq hs hchan
      exact ⟨rfl, rfl, rfl, rfl⟩
  · unfold get_position send_command at h
    rw [if_neg hc] at h
    simp at h

/-- Claim C9 — a `POSITION` reply that does not start with `POS X=` leaves
the cached position unchanged and `get_position` returns the previous
cached value (first conjunct); conversely, whenever a normally returning
`get_position` changes the cached position, the reply it consumed did
start with `POS X=` — i.e. only a well-formed position report overwrites
the cache (second conjunct). -/
theorem get_position_malformed_keeps_cache :
    (∀ (s : CtrlState) (c : Chan), s.connected = true →
      pyStartsWith (pyStrip (c.replies c.cursor)) "POS X=" = false →
      get_position s c =
        (.ok s.position, s, ⟨c.replies, c.cursor + 1, c.sent ++ ["POSITION"]⟩)) ∧
    (∀ (s : CtrlState) (c : Chan) (q : Position) (s1 : CtrlState) (c1 : Chan),
      get_position s c = (.ok q, s1, c1) → s1.position ≠ s.position →
      pyStartsWith (pyStrip (c.replies c.cursor)) "POS X=" = true) := by
  constructor
  · intro s c hc hm
    unfold get_position send_command
    rw [if_pos hc]
    dsimp only
    rw [hm]
    simp
  · intro s c q s1 c1 h hne
    by_cases hc : s.connected = true
    · by_cases hb : pyStartsWith (pyStrip (c.replies c.cursor)) "POS X=" = true
      · exact hb
      · exfalso
        rw [Bool.not_eq_true] at hb
        unfold get_position send_command at h
        rw [if_pos hc] at h
        dsimp only at h
        rw [hb] at h
        simp only [Bool.false_eq_true, if_false, Prod.mk.injEq, Except.ok.injEq] at h
        exact hne (by rw [h.2.1])
    · unfold get_position send_command at h
      rw [if_neg hc] at h
      simp at h

/-- Claim C9 witness: with cached position (3, 4) and the reply `NOPE`,
`get_position` keeps the cache and returns (3, 4). -/
theorem get_position_malformed_keeps_cache_witness :
    get_position stAt34 chanNope =
      (.ok stAt34.position, stAt34,
        ⟨chanNope.replies, chanNope.cursor + 1, chanNope.sent ++ ["POSITION"]⟩) :=
  get_position_malformed_keeps_cache.1 stAt34 chanNope rfl rfl

/-- Claim C5 counterexample — the claim says every state-mutating command,
`move_relative` included, fails with a `NotConnected` error while
disconnected.  On a freshly constructed (disconnected, not enabled)
controller, `move_relative(1, 1)` instead returns the plain value `False`
from the `enabled` guard: nothing is written, the result is a normal
return (`isOk`), and no `NotConnected` (`ConnectionError`) is raised. -/
theorem move_relative_disconnected_no_error :
    move_relative stInit chanOK 1 1 = (.ok false, stInit, chanOK) ∧
    (move_relative stInit chanOK 1 1).1.isOk = true ∧
    stInit.connected = false :=
  ⟨rfl, rfl, rfl⟩

/-- Claim C5 as amended — while `connected = false`, the commands
`enable`, `disable`, `home`, `emergency_stop` and `set_limits` raise the
`NotConnected` `ConnectionError` and leave the channel untouched (no byte
written); `move_relative` also writes nothing, but it raises
`NotConnected` only when the controller is enabled and at least one delta
is nonzero — when not enabled it returns the plain value `False`, and when
enabled with both deltas zero it returns `True`. -/
theorem disconnected_commands_fail :
    ∀ (s : CtrlState) (c : Chan), s.connected = false →
      enable s c = (.error .connectionError, s, c) ∧
      disable s c = (.error .connectionError, s, c) ∧
      home s c = (.error .connectionError, s, c) ∧
      emergency_stop s c = (.error .connectionError, s, c) ∧
      (∀ a b d e : Int, set_limits s c a b d e = (.error .connectionError, s, c)) ∧
      (s.enabled = false → ∀ dx dy : Int, move_relative s c dx dy = (.ok false, s, c)) ∧
      (s.enabled = true → ∀ dx dy : Int, dx ≠ 0 ∨ dy ≠ 0 →
        move_relative s c dx dy = (.error .connectionError, s, c)) ∧
      (s.enabled = true → move_relative s c 0 0 = (.ok true, s, c)) := by
  intro s c hc
  obtain ⟨conn, en, ⟨px, py⟩⟩ := s
  simp only [CtrlState.connected] at hc
  subst hc
  refine ⟨?_, ?_, ?_, ?_, ?_, ?_, ?_, ?_⟩
  · simp [enable, send_command]
  · simp [disable, send_command]
  · simp [home, send_command]
  · simp [emergency_stop, send_command]
  · intro a b d e
    simp [set_limits, send_command]
  · intro he dx dy
    simp only [CtrlState.enabled] at he
    subst he
    simp [move_relative]
  · intro he dx dy hnz
    simp only [CtrlState.enabled] at he
    subst he
    by_cases hdx : dx = 0
    · subst hdx
      rcases hnz with h0 | hdy
      · exact absurd rfl h0
      · simp [move_relative, move_axis, send_command, hdy]
    · simp [move_relative, move_axis, send_command, hdx]
  · intro he
    simp only [CtrlState.enabled] at he
    subst he
    simp [move_relative, move_axis]

/-- Claim C5 witness: on a disconnected controller, `enable` raises
`NotConnected` without touching the channel, and a disconnected but
enabled controller raises `NotConnected` on `move_relative(1, 0)`. -/
theorem disconnected_commands_fail_witness :
    enable stInit chanOK = (.error .connectionError, stInit, chanOK) ∧
    move_relative ⟨false, true, ⟨0, 0⟩⟩ chanOK 1 0 =
      (.error .connectionError, ⟨false, true, ⟨0, 0⟩⟩, chanOK) :=
  ⟨(disconnected_commands_fail stInit chanOK rfl).1,
    (disconnected_commands_fail ⟨false, true, ⟨0, 0⟩⟩ chanOK rfl).2.2.2.2.2.2.1 rfl 1 0
      (Or.inl (by decide))⟩

/-- A `disconnect` on an already-disconnected controller is a no-op. -/
theorem disconnect_not_connected (s : CtrlState) (c : Chan)
    (h : s.connected = false) : disconnect s c = (.ok (), s, c) := by
  unfold disconnect
  rw [if_neg (by rw [h]; simp)]

/-- A `disconnect` on a connected controller closes the port after one
best-effort `DISABLE` (whose acknowledgement only decides whether
`enabled` is cleared). -/
theorem disconnect_connected (s : CtrlState) (c : Chan) (h : s.connected = true) :
    ∃ en : Bool, disconnect s c =
      (.ok (), ⟨false, en, s.position⟩,
        ⟨c.replies, c.cursor + 1, c.sent ++ ["DISABLE"]⟩) := by
  unfold disconnect disable send_command
  rw [if_pos h, if_pos h]
  dsimp only
  by_cases hr : pyStrip (c.replies c.cursor) = "OK"
  · rw [if_pos hr]
    exact ⟨false, rfl⟩
  · rw [if_neg hr]
    exact ⟨s.enabled, rfl⟩

/-- Claim C7 — `disconnect` never raises; after any `disconnect` the
controller is disconnected, and calling `disconnect` again returns the
state and the channel identically — in particular the second call is a
no-op that sends no second `DISABLE` to the channel; and when the
controller was already disconnected the first call is itself a no-op. -/
theorem disconnect_idempotent :
    ∀ (s : CtrlState) (c : Chan), ∃ (s1 : CtrlState) (c1 : Chan),
      disconnect s c = (.ok (), s1, c1) ∧ s1.connected = false ∧
      disconnect s1 c1 = (.ok (), s1, c1) ∧
      (s.connected = false → s1 = s ∧ c1 = c) := by
  intro s c
  by_cases hc : s.connected = true
  · obtain ⟨en, hdc⟩ := disconnect_connected s c hc
    refine ⟨⟨false, en, s.position⟩, _, hdc, rfl,
      disconnect_not_connected _ _ rfl, ?_⟩
    intro h
    rw [hc] at h
    exact absurd h (by simp)
  · rw [Bool.not_eq_true] at hc
    exact ⟨s, c, disconnect_not_connected s c hc, hc,
      disconnect_not_connected s c hc, fun _ => ⟨rfl, rfl⟩⟩

/-- Claim C7 witness: disconnecting a connected controller (device
acknowledging with `OK`) yields a disconnected controller on which a
second `disconnect` changes nothing and sends nothing. -/
theorem disconnect_idempotent_witness :
    ∃ (s1 : CtrlState) (c1 : Chan),
      disconnect stConn chanOK = (.ok (), s1, c1) ∧ s1.connected = false ∧
      disconnect s1 c1 = (.ok (), s1, c1) ∧
      (stConn.connected = false → s1 = stConn ∧ c1 = chanOK) :=
  disconnect_idempotent stConn chanOK

/-- Claim C1 counterexample — from cached position (0, 0), connected and
enabled, `move_to(0, 0)` (the `x == p.x`, `y == p.y` case) returns `True`
and leaves the state unchanged, but it does not issue zero commands on the
channel: exactly one `POSITION` query is written by the internal
`get_position` refresh. -/
theorem move_to_same_point_sends_query :
    (move_to stConn chanOK 0 0).1 = .ok true ∧
    (move_to stConn chanOK 0 0).2.1 = stConn ∧
    (move_to stConn chanOK 0 0).2.2.sent = ["POSITION"] :=
  ⟨rfl, rfl, rfl⟩

/-- Claim C1 as amended — under connected and enabled, whenever the
internal `get_position` refresh returns a position `q` (which is exactly
the cached position after the refresh), `move_to(x, y)` passes the deltas
`(x - q.x, y - q.y)` to `move_relative`; the refresh appends exactly one
`POSITION` command to the channel, and when `x = q.x` and `y = q.y` the
call returns `True` with state and channel exactly as the refresh left
them — zero MOVE commands, but one POSITION query. -/
theorem move_to_deltas_from_cache (s : CtrlState) (c : Chan) (x y : Int)
    (q : Position) (s1 : CtrlState) (c1 : Chan)
    (hc : s.connected = true) (he : s.enabled = true)
    (h : get_position s c = (.ok q, s1, c1)) :
    move_to s c x y = move_relative s1 c1 (x - q.x) (y - q.y) ∧
    s1.position = q ∧
    c1.sent = c.sent ++ ["POSITION"] ∧
    (x = q.x → y = q.y → move_to s c x y = (.ok true, s1, c1)) := by
  obtain ⟨hpos, hcon, hen, hchan⟩ := get_position_ok_inv s c q s1 c1 h
  have hdel : move_to s c x y = move_relative s1 c1 (x - q.x) (y - q.y) := by
    unfold move_to
    rw [h]
  refine ⟨hdel, hpos, by rw [hchan], ?_⟩
  intro hx hy
  subst hx hy
  rw [hdel, sub_self, sub_self]
  have he1 : s1.enabled = true := by rw [hen, he]
  obtain ⟨conn1, en1, ⟨p1x, p1y⟩⟩ := s1
  simp only [CtrlState.enabled] at he1
  subst he1
  simp [move_relative, move_axis]

/-- Claim C1 witness: with cached position (3, 4) and a non-position
reply to the query, `move_to(3, 4)` returns `True`, leaves the cache at
(3, 4), and the only command on the channel is the `POSITION` query. -/
theorem move_to_deltas_from_cache_witness :
    move_to stAt34 chanNope 3 4 =
      (.ok true, stAt34, ⟨chanNope.replies, 1, ["POSITION"]⟩) :=
  (move_to_deltas_from_cache stAt34 chanNope 3 4 ⟨3, 4⟩ stAt34
    ⟨chanNope.replies, 1, ["POSITION"]⟩ rfl rfl rfl).2.2.2 rfl rfl

/-- Claim C6 — while connected and enabled, if either axis `MOVE` receives
a non-`OK` reply then `move_relative` returns `False`, the state (and in
particular the cached position) is exactly its value from before the call,
and the only commands written are the MOVE commands up to and including
the failed one — no rollback command follows a successful X move whose Y
move fails.  The three conjuncts cover: X move fails; X succeeds and Y
fails; X skipped (zero delta) and Y fails. -/
theorem move_relative_failure_no_update :
    ∀ (s : CtrlState) (c : Chan) (dx dy : Int),
      s.connected = true → s.enabled = true →
      ((dx ≠ 0 → pyStrip (c.replies c.cursor) ≠ "OK" →
        move_relative s c dx dy =
          (.ok false, s,
            ⟨c.replies, c.cursor + 1, c.sent ++ ["MOVE X " ++ toString dx]⟩)) ∧
       (dx ≠ 0 → dy ≠ 0 → pyStrip (c.replies c.cursor) = "OK" →
        pyStrip (c.replies (c.cursor + 1)) ≠ "OK" →
        move_relative s c dx dy =
          (.ok false, s,
            ⟨c.replies, c.cursor + 2,
              c.sent ++ ["MOVE X " ++ toString dx, "MOVE Y " ++ toString dy]⟩)) ∧
       (dx = 0 → dy ≠ 0 → pyStrip (c.replies c.cursor) ≠ "OK" →
        move_relative s c dx dy =
          (.ok false, s,
            ⟨c.replies, c.cursor + 1, c.sent ++ ["MOVE Y " ++ toString dy]⟩))) := by
  intro s c dx dy hc he
  refine ⟨?_, ?_, ?_⟩
  · intro hdx hr
    simp [move_relative, move_axis, send_command, hc, he, hdx, hr]
  · intro hdx hdy hr1 hr2
    simp [move_relative, move_axis, send_command, hc, he, hdx, hdy, hr1, hr2,
      List.append_assoc]
  · intro hdx hdy hr
    subst hdx
    simp [move_relative, move_axis, send_command, hc, he, hdy, hr]

/-- Claim C6 witness: from (0, 0) with the device acknowledging the first
command and rejecting the second, `move_relative(5, 7)` sends `MOVE X 5`
then `MOVE Y 7`, returns `False`, and the cached position stays (0, 0)
with no rollback command. -/
theorem move_relative_failure_no_update_witness :
    move_relative stConn chanOkThenErr 5 7 =
      (.ok false, stConn,
        ⟨chanOkThenErr.replies, 2, ["MOVE X " ++ toString (5 : Int),
          "MOVE Y " ++ toString (7 : Int)]⟩) :=
  (move_relative_failure_no_update stConn chanOkThenErr 5 7 rfl rfl).2.1
    (by decide) (by decide) rfl (by decide)

/-- Claim C8 counterexample — on a port that opens but answers with the
banner `HELLO` (no `READY` token), `connect` fails, yet the failure is
reported as the plain return value `False` with the port left open; no
`ConnectionError` (nor any other exception) is raised to the caller,
refuting the claim that every connect failure is reported as a
`ConnectionError`. -/
theorem connect_failure_returns_false :
    connect stInit ⟨false, "HELLO"⟩ = (.ok false, ⟨true, false, ⟨0, 0⟩⟩) ∧
    pyContains (pyStrip "HELLO") "READY" = false ∧
    (connect stInit ⟨false, "HELLO"⟩).1.isOk = true :=
  ⟨rfl, rfl, rfl⟩

/-- Claim C8 as amended — `connect` never raises to the caller: a channel
open failure (`SerialException`) is caught and reported as the return
value `False`, and otherwise the port is opened and `connect` returns
`True` exactly when the stripped banner line contains the token `READY`
(`False`, not a `ConnectionError`, on a non-READY banner). -/
theorem connect_ready_iff :
    ∀ (s : CtrlState) (p : PortCfg),
      (p.openFails = true → connect s p = (.ok false, s)) ∧
      (p.openFails = false →
        connect s p =
          (.ok (pyContains (pyStrip p.banner) "READY"), { s with connected := true })) ∧
      (∀ (e : PyErr) (s' : CtrlState), connect s p ≠ (.error e, s')) := by
  intro s p
  obtain ⟨fails, banner⟩ := p
  refine ⟨?_, ?_, ?_⟩
  · intro h
    subst h
    rfl
  · intro h
    subst h
    by_cases hb : pyContains (pyStrip banner) "READY" = true
    · simp [connect, hb]
    · rw [Bool.not_eq_true] at hb
      simp [connect, hb]
  · intro e s' h
    unfold connect at h
    cases fails with
    | true => exact Except.noConfusion (congrArg Prod.fst h)
    | false =>
      dsimp only at h
      by_cases hb : pyContains (pyStrip banner) "READY" = true
      · rw [if_pos hb] at h
        exact Except.noConfusion (congrArg Prod.fst h)
      · rw [if_neg hb] at h
        exact Except.noConfusion (congrArg Prod.fst h)

/-- Claim C8 witness: a banner containing `READY` yields a `True` return
and an open (connected) port. -/
theorem connect_ready_iff_witness :
    connect stInit ⟨false, "JANKO READY"⟩ =
      (.ok (pyContains (pyStrip "JANKO READY") "READY"),
        { stInit with connected := true }) :=
  (connect_ready_iff stInit ⟨false, "JANKO READY"⟩).2.1 rfl

/-- Stripping the reply `OK` is the identity. -/
theorem pyStrip_OK : pyStrip "OK" = "OK" := rfl

/-- When connected, enabled and every scripted reply is `OK`,
`move_relative` succeeds and adds the deltas to the cached position; the
reply script is unchanged. -/
theorem move_relative_allOK (s : CtrlState) (c : Chan) (dx dy : Int)
    (hc : s.connected = true) (he : s.enabled = true)
    (hr : ∀ i, c.replies i = "OK") :
    ∃ c' : Chan,
      move_relative s c dx dy =
        (.ok true,
          { s with position := ⟨s.position.x + dx, s.position.y + dy⟩ }, c') ∧
      c'.replies = c.replies := by
  by_cases hdx : dx = 0 <;> by_cases hdy : dy = 0
  · refine ⟨c, ?_, rfl⟩
    subst hdx hdy
    obtain ⟨conn, en, ⟨px, py⟩⟩ := s
    simp only [CtrlState.enabled] at he
    subst he
    simp [move_relative, move_axis]
  · refine ⟨⟨c.replies, c.cursor + 1, c.sent ++ ["MOVE Y " ++ toString dy]⟩, ?_, rfl⟩
    subst hdx
    simp [move_relative, move_axis, send_command, hc, he, hdy, hr, pyStrip_OK]
  · refine ⟨⟨c.replies, c.cursor + 1, c.sent ++ ["MOVE X " ++ toString dx]⟩, ?_, rfl⟩
    subst hdy
    simp [move_relative, move_axis, send_command, hc, he, hdx, hr, pyStrip_OK]
  · refine ⟨⟨c.replies, c.cursor + 2,
      c.sent ++ ["MOVE X " ++ toString dx, "MOVE Y " ++ toString dy]⟩, ?_, rfl⟩
    simp [move_relative, move_axis, send_command, hc, he, hdx, hdy, hr, pyStrip_OK,
      List.append_assoc]

/-- Claim C3 — a straight-line sequence of `move_relative` calls issued
while connected and enabled, in which every `MOVE` command is acknowledged
with `OK` (modelled by a reply script answering `OK` to every line, the
only commands such a sequence sends being `MOVE` commands), succeeds on
every call and leaves the cached position at the starting position plus
the cumulative sum of the deltas. -/
theorem move_relative_accumulates :
    ∀ (ds : List (Int × Int)) (s : CtrlState) (c : Chan),
      s.connected = true → s.enabled = true → (∀ i, c.replies i = "OK") →
      ∃ c' : Chan,
        runMoves s c ds =
          (.ok (),
            { s with position :=
              ⟨s.position.x + sumFst ds, s.position.y + sumSnd ds⟩ },
            c', List.replicate ds.length true) ∧
        c'.replies = c.replies := by
  intro ds
  induction ds with
  | nil =>
    intro s c hc he hr
    refine ⟨c, ?_, rfl⟩
    obtain ⟨conn, en, ⟨px, py⟩⟩ := s
    simp [runMoves, sumFst, sumSnd]
  | cons d rest ih =>
    intro s c hc he hr
    obtain ⟨dx, dy⟩ := d
    obtain ⟨c1, h1, hrep1⟩ := move_relative_allOK s c dx dy hc he hr
    have hr1 : ∀ i, c1.replies i = "OK" := fun i => by rw [hrep1]; exact hr i
    obtain ⟨c2, h2, hrep2⟩ :=
      ih { s with position := ⟨s.position.x + dx, s.position.y + dy⟩ } c1 hc he hr1
    refine ⟨c2, ?_, by rw [hrep2, hrep1]⟩
    simp [runMoves, h1, h2, sumFst, sumSnd, add_assoc, List.replicate_succ]

/-- Claim C3 witness: from (0, 0), the delta sequence (3, 4), (-1, 2) with
an all-`OK` device ends with the cached position (2, 6), every call
succeeding. -/
theorem move_relative_accumulates_witness :
    ∃ c' : Chan,
      runMoves stConn chanOK [((3 : Int), (4 : Int)), ((-1 : Int), (2 : Int))] =
        (.ok (),
          { stConn with position :=
            ⟨stConn.position.x + sumFst [(3, 4), (-1, 2)],
             stConn.position.y + sumSnd [(3, 4), (-1, 2)]⟩ },
          c', List.replicate ([((3 : Int), (4 : Int)), ((-1 : Int), (2 : Int))]).length true) ∧
      c'.replies = chanOK.replies :=
  move_relative_accumulates [(3, 4), (-1, 2)] stConn chanOK rfl rfl (fun _ => rfl)

/-- With an all-`OK` reply script, `get_position` keeps the cached
position (the reply `OK` is not a position report) and consumes one line. -/
theorem get_position_allOK (s : CtrlState) (c : Chan) (hc : s.connected = true)
    (hr : ∀ i, c.replies i = "OK") :
    get_position s c =
      (.ok s.position, s, ⟨c.replies, c.cursor + 1, c.sent ++ ["POSITION"]⟩) := by
  unfold get_position send_command
  rw [if_pos hc]
  dsimp only
  rw [hr c.cursor]
  rfl

/-- With an all-`OK` reply script, a `move_to` from a connected, enabled
controller succeeds and leaves the cached position at the target. -/
theorem move_to_allOK (s : CtrlState) (c : Chan) (x y : Int)
    (hc : s.connected = true) (he : s.enabled = true)
    (hr : ∀ i, c.replies i = "OK") :
    ∃ c' : Chan,
      move_to s c x y = (.ok true, { s with position := ⟨x, y⟩ }, c') ∧
      c'.replies = c.replies := by
  have hgp := get_position_allOK s c hc hr
  obtain ⟨c', h1, hrep⟩ := move_relative_allOK s
    ⟨c.replies, c.cursor + 1, c.sent ++ ["POSITION"]⟩
    (x - s.position.x) (y - s.position.y) hc he (fun i => hr i)
  refine ⟨c', ?_, hrep⟩
  unfold move_to
  rw [hgp]
  dsimp only
  rw [h1]
  have hstate :
      ({ s with position := ⟨s.position.x + (x - s.position.x),
          s.position.y + (y - s.position.y)⟩ } : CtrlState) =
        { s with position := ⟨x, y⟩ } := by
    ext
    · rfl
    · rfl
    · simp
    · simp
  rw [hstate]

/-- With an all-`OK` reply script, the scan loop visits every listed grid
point, invoking the callback once per point in order, and succeeds. -/
theorem scanPoints_allOK :
    ∀ (pts : List GridPt) (s : CtrlState) (c : Chan),
      s.connected = true → s.enabled = true → (∀ i, c.replies i = "OK") →
      ∃ (s' : CtrlState) (c' : Chan),
        scanPoints s c pts = ⟨.ok true, s', c', pts, pts.map (fun p => (p.x, p.y))⟩ ∧
        s'.connected = true ∧ s'.enabled = true ∧ c'.replies = c.replies := by
  intro pts
  induction pts with
  | nil =>
    intro s c hc he hr
    exact ⟨s, c, rfl, hc, he, rfl⟩
  | cons pt rest ih =>
    intro s c hc he hr
    obtain ⟨c1, h1, hrep1⟩ := move_to_allOK s c pt.x pt.y hc he hr
    have hr1 : ∀ i, c1.replies i = "OK" := fun i => by rw [hrep1]; exact hr i
    obtain ⟨s', c', h2, hc', he', hrep2⟩ :=
      ih { s with position := ⟨pt.x, pt.y⟩ } c1 hc he hr1
    refine ⟨s', c', ?_, hc', he', by rw [hrep2, hrep1]⟩
    simp [scanPoints, h1, h2]

/-- With an all-`OK` reply script, `raster_scan` succeeds: the initial
move to the start corner is followed by a callback at every grid point in
order, and the move targets are the start corner followed by every grid
point (so the start corner is targeted twice). -/
theorem raster_scan_allOK (s : CtrlState) (c : Chan) (xs ys xe ye sx sy : Int)
    (hc : s.connected = true) (he : s.enabled = true)
    (hr : ∀ i, c.replies i = "OK") :
    ∃ (s' : CtrlState) (c' : Chan),
      raster_scan s c xs ys xe ye sx sy =
        ⟨.ok true, s', c', gridPoints xs ys xe ye sx sy,
          (xs, ys) :: (gridPoints xs ys xe ye sx sy).map (fun p => (p.x, p.y))⟩ := by
  obtain ⟨c0, h0, hrep0⟩ := move_to_allOK s c xs ys hc he hr
  have hr0 : ∀ i, c0.replies i = "OK" := fun i => by rw [hrep0]; exact hr i
  obtain ⟨s', c', h2, hc', he', hrep2⟩ :=
    scanPoints_allOK (gridPoints xs ys xe ye sx sy)
      { s with position := ⟨xs, ys⟩ } c0 hc he hr0
  refine ⟨s', c', ?_⟩
  unfold raster_scan
  rw [h0]
  dsimp only
  rw [h2]

/-- A nested row-major loop flattened: binding a row map over `range m`
with row length `n` enumerates `range (m * n)` with the index split as
`k / n` (row) and `k % n` (column). -/
theorem range_flatMap_map {α : Type} (m n : Nat) (f : Nat → Nat → α) :
    (List.range m).flatMap (fun i => (List.range n).map (f i)) =
      (List.range (m * n)).map (fun k => f (k / n) (k % n)) := by
  rcases Nat.eq_zero_or_pos n with hn | hn
  · subst hn
    simp
  · induction m with
    | zero => simp
    | succ m ih =>
      rw [List.range_succ, List.flatMap_append, ih, Nat.succ_mul, List.range_add,
        List.map_append]
      congr 1
      simp only [List.flatMap_cons, List.flatMap_nil, List.append_nil, List.map_map]
      apply List.map_congr_left
      intro j hj
      rw [List.mem_range] at hj
      have hdiv : (m * n + j) / n = m := by
        rw [Nat.add_comm, Nat.add_mul_div_right _ _ hn, Nat.div_eq_of_lt hj,
          Nat.zero_add]
      have hmod : (m * n + j) % n = j := by
        rw [Nat.add_comm, Nat.add_mul_mod_self_right, Nat.mod_eq_of_lt hj]
      simp [Function.comp, hdiv, hmod]

/-- The grid of a raster scan as a single map over a flat range: point
number `k` sits in column `k % (x_points + 1)` and row
`k / (x_points + 1)`. -/
theorem gridPoints_eq_map (xs ys xe ye sx sy : Int) :
    gridPoints xs ys xe ye sx sy =
      (List.range
        ((y_points ys ye sy + 1).toNat * (x_points xs xe sx + 1).toNat)).map
        (fun k =>
          ⟨xs + ((k % (x_points xs xe sx + 1).toNat : Nat) : Int) * sx,
           ys + ((k / (x_points xs xe sx + 1).toNat : Nat) : Int) * sy,
           k % (x_points xs xe sx + 1).toNat,
           k / (x_points xs xe sx + 1).toNat⟩) := by
  unfold gridPoints
  exact range_flatMap_map _ _ _

/-- Flooring division of a span by a step of the sign needed to progress
across the span is non-negative. -/
theorem fdiv_nonneg_of_progress (a b : Int)
    (h : (0 < b ∧ 0 ≤ a) ∨ (b < 0 ∧ a ≤ 0)) : 0 ≤ a.fdiv b := by
  rcases h with ⟨hb, ha⟩ | ⟨hb, ha⟩
  · exact Int.fdiv_nonneg ha hb.le
  · cases a with
    | ofNat na =>
      have hna : na = 0 := by
        have h1 : (na : Int) ≤ 0 := by rwa [Int.ofNat_eq_natCast] at ha
        omega
      subst hna
      simp
    | negSucc na =>
      cases b with
      | ofNat nb => exact absurd hb (Int.ofNat_nonneg nb).not_lt
      | negSucc nb =>
        rw [show Int.fdiv (Int.negSucc na) (Int.negSucc nb) =
          Int.ofNat (na.succ / nb.succ) from rfl]
        exact Int.ofNat_nonneg _

/-- Claim C2 — with nonzero steps of the sign needed to progress from
start to end and a device that acknowledges every command, a raster scan
succeeds and visits (invokes the callback at) exactly the grid points, in
row-major order: there are `(x_points + 1) * (y_points + 1)` of them
(`x_points = (x_end - x_start) // x_step`, `y_points` likewise), and the
`k`-th visited point is column `k % (x_points + 1)` of row
`k / (x_points + 1)`, the outer loop running over the Y index ascending
and the inner loop over the X index ascending.  In particular the scan
over (0, 0) → (500, 500) with steps (100, 100) visits exactly the 36
points of `grid36` in that order. -/
theorem raster_scan_grid_row_major :
    (∀ (s : CtrlState) (c : Chan) (xs ys xe ye sx sy : Int),
      s.connected = true → s.enabled = true → (∀ i, c.replies i = "OK") →
      ((0 < sx ∧ xs ≤ xe) ∨ (sx < 0 ∧ xe ≤ xs)) →
      ((0 < sy ∧ ys ≤ ye) ∨ (sy < 0 ∧ ye ≤ ys)) →
      (∃ (s' : CtrlState) (c' : Chan),
        raster_scan s c xs ys xe ye sx sy =
          ⟨.ok true, s', c', gridPoints xs ys xe ye sx sy,
            (xs, ys) :: (gridPoints xs ys xe ye sx sy).map (fun p => (p.x, p.y))⟩) ∧
      ((gridPoints xs ys xe ye sx sy).length : Int) =
        (x_points xs xe sx + 1) * (y_points ys ye sy + 1) ∧
      (∀ k : Nat, k < (gridPoints xs ys xe ye sx sy).length →
        (gridPoints xs ys xe ye sx sy)[k]? =
          some ⟨xs + ((k % (x_points xs xe sx + 1).toNat : Nat) : Int) * sx,
                ys + ((k / (x_points xs xe sx + 1).toNat : Nat) : Int) * sy,
                k % (x_points xs xe sx + 1).toNat,
                k / (x_points xs xe sx + 1).toNat⟩)) ∧
    ((raster_scan stConn chanOK 0 0 500 500 100 100).res = .ok true ∧
      (raster_scan stConn chanOK 0 0 500 500 100 100).calls = grid36) := by
  constructor
  · intro s c xs ys xe ye sx sy hc he hr hx hy
    have hxp : 0 ≤ x_points xs xe sx :=
      fdiv_nonneg_of_progress (xe - xs) sx (by
        rcases hx with ⟨h1, h2⟩ | ⟨h1, h2⟩
        · exact Or.inl ⟨h1, by omega⟩
        · exact Or.inr ⟨h1, by omega⟩)
    have hyp : 0 ≤ y_points ys ye sy :=
      fdiv_nonneg_of_progress (ye - ys) sy (by
        rcases hy with ⟨h1, h2⟩ | ⟨h1, h2⟩
        · exact Or.inl ⟨h1, by omega⟩
        · exact Or.inr ⟨h1, by omega⟩)
    refine ⟨raster_scan_allOK s c xs ys xe ye sx sy hc he hr, ?_, ?_⟩
    · rw [gridPoints_eq_map, List.length_map, List.length_range]
      push_cast [Int.toNat_of_nonneg (by omega : (0:Int) ≤ y_points ys ye sy + 1),
        Int.toNat_of_nonneg (by omega : (0:Int) ≤ x_points xs xe sx + 1)]
      ring
    · intro k hk
      rw [gridPoints_eq_map] at hk ⊢
      rw [List.length_map, List.length_range] at hk
      simp [List.getElem?_map, List.getElem?_range, hk]
  · exact ⟨rfl, by decide⟩

/-- Claim C2 witness: the grid of the scan over (0, 0) → (500, 500) with
steps (100, 100) has exactly (5 + 1) * (5 + 1) = 36 points. -/
theorem raster_scan_grid_row_major_witness :
    ((gridPoints 0 0 500 500 100 100).length : Int) =
      (x_points 0 500 100 + 1) * (y_points 0 500 100 + 1) :=
  (raster_scan_grid_row_major.1 stConn chanOK 0 0 500 500 100 100 rfl rfl
    (fun _ => rfl) (Or.inl ⟨by decide, by decide⟩)
    (Or.inl ⟨by decide, by decide⟩)).2.1

/-- The scan loop on a returned `False`: some listed point `k` failed its
move; the callback ran exactly for the points before `k`, and the whole
outcome — final state, channel trace and observation lists — is the same
as if the scan had been over the list truncated just after the failed
point, i.e. nothing after the failure was attempted. -/
theorem scanPoints_false_abort :
    ∀ (pts : List GridPt) (s : CtrlState) (c : Chan) (s' : CtrlState) (c' : Chan)
      (calls : List GridPt) (targets : List (Int × Int)),
      scanPoints s c pts = ⟨.ok false, s', c', calls, targets⟩ →
      ∃ k, k < pts.length ∧ calls = pts.take k ∧
        scanPoints s c (pts.take (k + 1)) = ⟨.ok false, s', c', calls, targets⟩ := by
  intro pts
  induction pts with
  | nil =>
    intro s c s' c' calls targets h
    have hres : (Except.ok true : Except PyErr Bool) = .ok false :=
      congrArg ScanOut.res h
    simp at hres
  | cons pt rest ih =>
    intro s c s' c' calls targets h
    rcases hmt : move_to s c pt.x pt.y with ⟨r, s1, c1⟩
    rw [scanPoints, hmt] at h
    match r with
    | .error e =>
      dsimp only at h
      simp [ScanOut.mk.injEq] at h
    | .ok false =>
      dsimp only at h
      simp only [ScanOut.mk.injEq, true_and] at h
      obtain ⟨hs1, hc1, hcalls, htg⟩ := h
      subst hs1 hc1 hcalls htg
      refine ⟨0, by simp, rfl, ?_⟩
      rw [show (0 + 1 : Nat) = 1 from rfl, show (pt :: rest).take 1 = [pt] by simp]
      rw [scanPoints, hmt]
    | .ok true =>
      dsimp only at h
      rcases hsp : scanPoints s1 c1 rest with ⟨r2, s2, c2, cl2, tg2⟩
      rw [hsp] at h
      dsimp only at h
      simp only [ScanOut.mk.injEq] at h
      obtain ⟨hr2, hs2, hc2, hcl, htg⟩ := h
      rw [hr2] at hsp
      obtain ⟨k, hk, hcl2, habort⟩ := ih s1 c1 s2 c2 cl2 tg2 hsp
      refine ⟨k + 1, by simpa using hk, ?_, ?_⟩
      · rw [← hcl, hcl2, List.take_succ_cons]
      · rw [List.take_succ_cons, scanPoints, hmt]
        dsimp only
        rw [habort]
        dsimp only
        rw [hs2, hc2, hcl, htg]

/-- Claim C4 — a raster scan that returns `False` aborted at its first
failed `move_to`: either the separate initial move to the start corner
failed (no grid point visited, no callback at all), or some grid point
`k` failed, the callbacks are exactly the grid points strictly before
`k` (none for the failed point), and the entire outcome equals that of
the loop truncated just after point `k` — no later point is moved to, no
partial-completion continuation is attempted. -/
theorem raster_scan_aborts_on_failure :
    ∀ (s : CtrlState) (c : Chan) (xs ys xe ye sx sy : Int) (s' : CtrlState)
      (c' : Chan) (calls : List GridPt) (targets : List (Int × Int)),
      raster_scan s c xs ys xe ye sx sy = ⟨.ok false, s', c', calls, targets⟩ →
      (move_to s c xs ys = (.ok false, s', c') ∧ calls = [] ∧ targets = [(xs, ys)]) ∨
      (∃ (s0 : CtrlState) (c0 : Chan) (k : Nat) (tg : List (Int × Int)),
        k < (gridPoints xs ys xe ye sx sy).length ∧
        move_to s c xs ys = (.ok true, s0, c0) ∧
        calls = (gridPoints xs ys xe ye sx sy).take k ∧
        targets = (xs, ys) :: tg ∧
        scanPoints s0 c0 ((gridPoints xs ys xe ye sx sy).take (k + 1)) =
          ⟨.ok false, s', c', calls, tg⟩) := by
  intro s c xs ys xe ye sx sy s' c' calls targets h
  rcases hmt : move_to s c xs ys with ⟨r, s0, c0⟩
  rw [raster_scan, hmt] at h
  match r with
  | .error e =>
    dsimp only at h
    simp [ScanOut.mk.injEq] at h
  | .ok false =>
    dsimp only at h
    simp only [ScanOut.mk.injEq, true_and] at h
    obtain ⟨hs0, hc0, hcalls, htg⟩ := h
    subst hs0 hc0 hcalls htg
    exact Or.inl ⟨rfl, rfl, rfl⟩
  | .ok true =>
    dsimp only at h
    rcases hsp : scanPoints s0 c0 (gridPoints xs ys xe ye sx sy) with
      ⟨r2, s2, c2, cl2, tg2⟩
    rw [hsp] at h
    dsimp only at h
    simp only [ScanOut.mk.injEq] at h
    obtain ⟨hr2, hs2, hc2, hcl, htg⟩ := h
    rw [hr2] at hsp
    obtain ⟨k, hk, hcl2, habort⟩ :=
      scanPoints_false_abort (gridPoints xs ys xe ye sx sy) s0 c0 s2 c2 cl2 tg2 hsp
    refine Or.inr ⟨s0, c0, k, tg2, hk, rfl, by rw [← hcl, hcl2], htg.symm, ?_⟩
    rw [habort, hs2, hc2, hcl]

/-- Claim C4 witness: scanning (0, 0) → (100, 100) with steps (100, 100)
against a device that rejects the fourth line (the `MOVE X 100` of the
second grid point) aborts with `False` after a single callback at
(0, 0). -/
theorem raster_scan_aborts_on_failure_witness :
    (move_to stConn chanFailAt3 0 0 = (.ok false, stConn, cFail4) ∧
      ([(⟨0, 0, 0, 0⟩ : GridPt)] : List GridPt) = [] ∧
      ([((0 : Int), (0 : Int)), (0, 0), (100, 0)] : List (Int × Int)) = [(0, 0)]) ∨
    (∃ (s0 : CtrlState) (c0 : Chan) (k : Nat) (tg : List (Int × Int)),
      k < (gridPoints 0 0 100 100 100 100).length ∧
      move_to stConn chanFailAt3 0 0 = (.ok true, s0, c0) ∧
      ([(⟨0, 0, 0, 0⟩ : GridPt)] : List GridPt) =
        (gridPoints 0 0 100 100 100 100).take k ∧
      ([((0 : Int), (0 : Int)), (0, 0), (100, 0)] : List (Int × Int)) = (0, 0) :: tg ∧
      scanPoints s0 c0 ((gridPoints 0 0 100 100 100 100).take (k + 1)) =
        ⟨.ok false, stConn, cFail4, [(⟨0, 0, 0, 0⟩ : GridPt)], tg⟩) :=
  raster_scan_aborts_on_failure stConn chanFailAt3 0 0 100 100 100 100 stConn cFail4
    [⟨0, 0, 0, 0⟩] [(0, 0), (0, 0), (100, 0)] (by rfl)

/-- Claim C10 — `raster_scan` issues a separate `move_to` to the start
corner before the loop: if that initial move fails the scan returns
`False` with zero callback invocations (first conjunct); on a fully
successful scan (all-`OK` device, non-degenerate grid) the start corner
is targeted by `move_to` twice — once before the loop and once as grid
point (0, 0), the head of the grid — while the callback still runs
exactly once per grid point, `calls` being exactly the grid list
(second conjunct). -/
theorem raster_scan_initial_move :
    (∀ (s : CtrlState) (c : Chan) (xs ys xe ye sx sy : Int)
      (s1 : CtrlState) (c1 : Chan),
      move_to s c xs ys = (.ok false, s1, c1) →
      raster_scan s c xs ys xe ye sx sy = ⟨.ok false, s1, c1, [], [(xs, ys)]⟩) ∧
    (∀ (s : CtrlState) (c : Chan) (xs ys xe ye sx sy : Int),
      s.connected = true → s.enabled = true → (∀ i, c.replies i = "OK") →
      0 ≤ x_points xs xe sx → 0 ≤ y_points ys ye sy →
      ∃ (s' : CtrlState) (c' : Chan),
        raster_scan s c xs ys xe ye sx sy =
          ⟨.ok true, s', c', gridPoints xs ys xe ye sx sy,
            (xs, ys) :: (gridPoints xs ys xe ye sx sy).map (fun p => (p.x, p.y))⟩ ∧
        ((gridPoints xs ys xe ye sx sy).map (fun p => (p.x, p.y))).head? =
          some (xs, ys)) := by
  constructor
  · intro s c xs ys xe ye sx sy s1 c1 h
    rw [raster_scan, h]
  · intro s c xs ys xe ye sx sy hc he hr hxp hyp
    obtain ⟨s', c', hrun⟩ := raster_scan_allOK s c xs ys xe ye sx sy hc he hr
    refine ⟨s', c', hrun, ?_⟩
    have h0 : (gridPoints xs ys xe ye sx sy)[0]? = some ⟨xs, ys, 0, 0⟩ := by
      rw [gridPoints_eq_map]
      have hNx : 0 < (x_points xs xe sx + 1).toNat := by omega
      have hNy : 0 < (y_points ys ye sy + 1).toNat := by omega
      simp [List.getElem?_map, List.getElem?_range, Nat.mul_pos hNy hNx,
        Nat.zero_mod, Nat.zero_div]
    rcases hg : gridPoints xs ys xe ye sx sy with _ | ⟨a, tl⟩
    · rw [hg] at h0
      simp at h0
    · rw [hg] at h0
      simp only [List.getElem?_cons_zero, Option.some.injEq] at h0
      subst h0
      simp

/-- Claim C10 witness: a rejected initial move aborts the scan with zero
callbacks; and a fully successful scan over (0, 0) → (100, 100) targets
(0, 0) twice — head of the targets after the initial corner move. -/
theorem raster_scan_initial_move_witness :
    raster_scan stConn chanErr 5 0 0 0 100 100 =
      ⟨.ok false, stConn, cErr2, [], [(5, 0)]⟩ ∧
    ∃ (s' : CtrlState) (c' : Chan),
      raster_scan stConn chanOK 0 0 100 100 100 100 =
        ⟨.ok true, s', c', gridPoints 0 0 100 100 100 100,
          ((0 : Int), (0 : Int)) ::
            (gridPoints 0 0 100 100 100 100).map (fun p => (p.x, p.y))⟩ ∧
      ((gridPoints 0 0 100 100 100 100).map (fun p => (p.x, p.y))).head? =
        some (0, 0) :=
  ⟨raster_scan_initial_move.1 stConn chanErr 5 0 0 0 100 100 stConn cErr2 (by rfl),
   raster_scan_initial_move.2 stConn chanOK 0 0 100 100 100 100 rfl rfl
     (fun _ => rfl) (by decide) (by decide)⟩

end Janko
